import Mathlib

/-!
Verification development for the sc-command-center widget studio
(src/src/pages/WidgetStudio.tsx and src/src/widgetRegistry.ts).

The studio is a single-threaded, event-loop driven React page.  We embed it
as an explicit state machine: the component state hooks become fields of a
`Studio` record, and the asynchronous steps (the 500 ms debounce timer that
runs `evaluateCode`, the 1000 ms auto-retry timers, the generation-service
fetches) become queued items that separate events fire.  The host
environment (window.Babel.transform and the `new Function` evaluation of the
transpiled text, which are browser primitives, not repository code) is a
parameter `JsEnv`; the transformation of the transpiled text by the two
regex `replace` calls on the export-default marker is folded into the
environment evaluation step, since no property below depends on it.

Closure semantics of the debounced evaluation, taken from the source: the
effect at lines 116-171 has dependency list [code], so it re-runs exactly at
the render commit that changed the source text, and its closure captures the
previewError and isGenerating values of that commit.  The comparison
`previewError !== errorMsg` and the guard `!isGenerating` inside the catch
clause read those captured values, not the values current when the 500 ms
timer fires: a prompt submission or a fetch resolution inside the debounce
window changes the live values without re-running the effect.  The armed
debounce is therefore modelled as a record carrying the captured snapshot
alongside the revision and the code text; writes made by the evaluation
(setPreviewError, setPreviewComponent) go to the live state as in the
source.  Other callbacks (handleGenerate, fetch resolutions) are modelled
as reading the state at invocation, which no judged property
distinguishes from their captures.
-/

/-- Conversation roles, from the `messages` state hook of WidgetStudio. -/
inductive Role where
  | user
  | assistant
  | system
deriving DecidableEq, Repr

/-- One conversation turn: role plus content. -/
structure Turn where
  role : Role
  content : String
deriving DecidableEq, Repr

/-- The value held by the `previewComponent` state hook: either the built-in
placeholder shown for empty source, or a component obtained by evaluating
compiled source (identified by the evaluation handle the environment
returned). -/
inductive PreviewComp where
  | placeholder
  | compiled (h : String)
deriving DecidableEq, Repr

/-- Successful outcome of the body of `evaluateCode`. -/
inductive EvalOk where
  | placeholder
  | component (h : String)
deriving DecidableEq, Repr

/-- The browser-host environment: whether window.Babel is present, the
Babel transpilation step (returning the diagnostic message on failure, as
carried by the thrown error), and the `new Function` construction plus
invocation of the transpiled text (which may throw at evaluation time; both
failure kinds are caught identically by the studio). -/
structure JsEnv where
  babelPresent : Bool
  transform : String → Except String String
  instantiate : String → Except String String

/-- The JSON body posted to /api/agent/widget/generate, from lines 194-202
of WidgetStudio.tsx. -/
structure GenRequestBody where
  prompt : String
  history : List Turn
  error_log : Option String
  current_code : String
  data_source_schema : Option String
  data_source : Option String
  data_source_type : Option String
deriving DecidableEq, Repr

/-- An outstanding generation-service request: the `newMessages` snapshot
the resolution code closes over, whether the call was an auto-retry (and
with which error text), and the body that was posted. -/
structure InflightReq where
  newMessages : List Turn
  auto : Option String
  body : GenRequestBody
deriving DecidableEq, Repr

/-- Possible outcomes of a generation-service request: a network failure
(the fetch rejected), a non-2xx HTTP response with its detail and status
text, or a 2xx response carrying optional code and explanation. -/
inductive GenResponse where
  | network (e : String)
  | httpError (detail : String) (statusText : String)
  | ok (code : Option String) (explanation : Option String)
deriving DecidableEq, Repr

/-- The armed debounce timer: the revision number and code text of the
commit that re-ran the [code] effect, together with the previewError and
isGenerating values its closure captured at that commit. -/
structure PendingEval where
  rev : Nat
  code : String
  capturedPreviewError : Option String
  capturedIsGenerating : Bool
deriving DecidableEq, Repr

/-- The studio session state.  The first group of fields are the React
state hooks of WidgetStudio; the second group makes the scheduled
asynchronous work explicit: `pendingEval` is the armed debounce timer
(carrying the captured closure of the commit that armed it),
`pendingRetries` are scheduled 1000 ms auto-retry calls, `inflight` are
outstanding generation fetches.  `rev` is a ghost revision counter bumped
by every `setCode`, and `lastApplied` records the (revision, code) whose
evaluation was last applied to the preview. -/
structure Studio where
  code : String
  prompt : String
  messages : List Turn
  isGenerating : Bool
  previewError : Option String
  previewComponent : Option PreviewComp
  dataSourceType : String
  dataSource : String
  dataSourceSchema : Option String
  rev : Nat
  pendingEval : Option PendingEval
  pendingRetries : List String
  inflight : List InflightReq
  lastApplied : Option (Nat × String)
deriving DecidableEq, Repr

/-- JavaScript String.prototype.trim, modelled over the character list:
leading and trailing whitespace characters are dropped. -/
def jsTrim (s : String) : String :=
  String.mk (((s.data.dropWhile Char.isWhitespace).reverse.dropWhile Char.isWhitespace).reverse)

/-- JavaScript truthiness-based defaulting on strings: `a || b`. -/
def jsOrS (a b : String) : String :=
  if a = "" then b else a

/-- JavaScript `a || b` where `a` is a possibly-absent string. -/
def jsOr (a b : Option String) : Option String :=
  match a with
  | none => b
  | some s => if s = "" then b else some s

/-- The `setCode` update: new code text, a new revision, and, because the
effect with dependency [code] re-runs at the commit that changed the code,
the debounce timer is cleared and re-armed for the new code (lines 168-171
of WidgetStudio.tsx), its closure capturing the previewError and
isGenerating values of that commit.  Callers apply setCode to the state as
committed by their batch of updates. -/
def setCode (st : Studio) (c : String) : Studio :=
  { st with
    code := c
    rev := st.rev + 1
    pendingEval := some
      { rev := st.rev + 1
        code := c
        capturedPreviewError := st.previewError
        capturedIsGenerating := st.isGenerating } }

/-- The request body built at lines 194-202: the prompt falls back to a fix
instruction when empty, the history drops system turns (and, being read
from the pre-append `messages` variable, excludes the turn being appended),
the error log is the auto-retry error or else the captured previewError,
and the current code is always sent. -/
def buildGenRequest (st : Studio) (auto : Option String) : GenRequestBody :=
  { prompt := jsOrS st.prompt "Please fix the compilation error in the code."
    history := st.messages.filter (fun t => t.role ≠ Role.system)
    error_log := jsOr auto st.previewError
    current_code := st.code
    data_source_schema := st.dataSourceSchema
    data_source := if st.dataSourceType ≠ "none" then some st.dataSource else none
    data_source_type := if st.dataSourceType ≠ "none" then some st.dataSourceType else none }

/-- The synchronous entry phase of `handleGenerate` (lines 173-203): guard,
append of the user or system turn, prompt/previewError updates on the user
path, setting of isGenerating, and issue of the fetch. -/
def handleGenerateEntry (st : Studio) (auto : Option String) : Studio :=
  let autoT := auto.getD ""
  if st.prompt = "" ∧ autoT = "" then st
  else
    let body := buildGenRequest st auto
    let newMsgs :=
      if autoT ≠ "" then
        st.messages ++ [⟨Role.system, "Auto-retrying due to compilation error: " ++ autoT⟩]
      else
        st.messages ++ [⟨Role.user, st.prompt⟩]
    { st with
      messages := newMsgs
      prompt := if autoT ≠ "" then st.prompt else ""
      previewError := if autoT ≠ "" then st.previewError else none
      isGenerating := true
      inflight := st.inflight ++ [⟨newMsgs, if autoT ≠ "" then some autoT else none, body⟩] }

/-- The resolution phase of `handleGenerate` (lines 205-226), applied when
the fetch for `req` settles with `resp`.  A network rejection or non-2xx
response appends a system turn to the snapshot and stops; a 2xx response
applies the returned code (when truthy) via setCode and appends an
assistant turn. -/
def resolveReq (st : Studio) (req : InflightReq) (resp : GenResponse) : Studio :=
  match resp with
  | GenResponse.network e =>
      { st with
        messages := req.newMessages ++ [⟨Role.system, "Network Error: " ++ e⟩]
        isGenerating := false }
  | GenResponse.httpError d stx =>
      { st with
        messages := req.newMessages ++ [⟨Role.system, "Server Error: " ++ jsOrS d stx⟩]
        isGenerating := false }
  | GenResponse.ok c expl =>
      let defaultExpl :=
        if req.auto.isSome then "I have attempted to fix the compilation error."
        else "Widget code generated."
      let stBase :=
        { st with
          messages := req.newMessages ++ [⟨Role.assistant, jsOrS (expl.getD "") defaultExpl⟩]
          isGenerating := false }
      match c with
      | some cc => if cc ≠ "" then setCode stBase cc else stBase
      | none => stBase

/-- The try-block of `evaluateCode` (lines 119-153): missing Babel throws;
empty or whitespace-only source yields the placeholder; otherwise the
source is transpiled and the result evaluated, either step possibly
throwing with a diagnostic message. -/
def evalBodyE (env : JsEnv) (c : String) : Except String EvalOk :=
  if env.babelPresent = false then
    Except.error "Babel compiler missing. Please ensure babel-standalone CDN is loaded."
  else if c = "" ∨ jsTrim c = "" then
    Except.ok EvalOk.placeholder
  else
    match env.transform c with
    | Except.error msg => Except.error msg
    | Except.ok t =>
        match env.instantiate t with
        | Except.error m => Except.error m
        | Except.ok h => Except.ok (EvalOk.component h)

/-- One firing of the debounced `evaluateCode` (lines 118-166) for the
armed closure p.  The previewError compared and the isGenerating guard
consulted by the catch clause are the values p captured at the commit that
armed the timer, not the live ones; the writes (setPreviewError,
setPreviewComponent, the retry setTimeout) go to the live state.  On
failure with a message equal to the captured one, the catch records
nothing and schedules nothing, leaving the error cleared by the top of the
try block; otherwise it records the message, drops the component, and,
unless the captured isGenerating held, schedules an auto-retry carrying
the message. -/
def evaluateCodeStep (env : JsEnv) (p : PendingEval) (st : Studio) : Studio :=
  match evalBodyE env p.code with
  | Except.ok EvalOk.placeholder =>
      { st with
        previewError := none
        previewComponent := some PreviewComp.placeholder
        pendingEval := none
        lastApplied := some (p.rev, p.code) }
  | Except.ok (EvalOk.component h) =>
      { st with
        previewError := none
        previewComponent := some (PreviewComp.compiled h)
        pendingEval := none
        lastApplied := some (p.rev, p.code) }
  | Except.error msg =>
      if p.capturedPreviewError ≠ some msg then
        { st with
          previewError := some msg
          previewComponent := none
          pendingRetries :=
            if p.capturedIsGenerating then st.pendingRetries
            else st.pendingRetries ++ [msg]
          pendingEval := none
          lastApplied := some (p.rev, p.code) }
      else
        { st with
          previewError := none
          pendingEval := none
          lastApplied := some (p.rev, p.code) }

/-- Outcome of running the compile-and-evaluate step: either it completed,
leaving a studio state, or an exception escaped it uncaught. -/
inductive StepOutcome where
  | completed (s : Studio)
  | uncaught (e : String)
deriving Repr

/-- The whole of `evaluateCode`: the try/catch converts every failure of
the body into state, so the step always completes; an uncaught outcome is
never produced. -/
def evaluateCode (env : JsEnv) (p : PendingEval) (st : Studio) : StepOutcome :=
  StepOutcome.completed (evaluateCodeStep env p st)

/-- Events of the studio event loop: the user typing into the prompt box,
submitting the prompt (Enter or the send button), manually editing the
source, the debounce timer firing, a scheduled auto-retry firing, and a
generation fetch settling. -/
inductive Event where
  | typePrompt (s : String)
  | submitPrompt
  | edit (c : String)
  | evalFire
  | retryFire (i : Nat)
  | resolve (i : Nat) (r : GenResponse)

/-- One step of the studio event loop. -/
def step (env : JsEnv) (st : Studio) : Event → Studio
  | Event.typePrompt s => { st with prompt := s }
  | Event.submitPrompt => handleGenerateEntry st none
  | Event.edit c => setCode st c
  | Event.evalFire =>
      match st.pendingEval with
      | none => st
      | some p => evaluateCodeStep env p st
  | Event.retryFire i =>
      match st.pendingRetries.get? i with
      | none => st
      | some msg =>
          handleGenerateEntry { st with pendingRetries := st.pendingRetries.eraseIdx i } (some msg)
  | Event.resolve i resp =>
      match st.inflight.get? i with
      | none => st
      | some req => resolveReq { st with inflight := st.inflight.eraseIdx i } req resp

/-- Run the event loop over a list of events. -/
def run (env : JsEnv) (st : Studio) (es : List Event) : Studio :=
  es.foldl (step env) st

/-- The default source text of the code editor (line 65). -/
def defaultCode : String :=
  "export default function MyWidget() \x7b\n  return (\n    <div className=\"p-4 bg-white rounded-lg shadow h-full flex items-center justify-center\">\n      <h3 className=\"text-xl font-bold text-slate-800\">Hello Widget</h3>\n    </div>\n  );\n\x7d"

/-- The initial studio state (lines 58-84), with the mount-time effect
having armed the debounce for the default code at revision 0. -/
def initialStudio : Studio :=
  { code := defaultCode
    prompt := ""
    messages := [⟨Role.assistant,
      "Welcome to the Widget Studio! Briefly describe the widget you want to build."⟩]
    isGenerating := false
    previewError := none
    previewComponent := none
    dataSourceType := "none"
    dataSource := ""
    dataSourceSchema := none
    rev := 0
    pendingEval := some
      { rev := 0, code := defaultCode
        capturedPreviewError := none, capturedIsGenerating := false }
    pendingRetries := []
    inflight := []
    lastApplied := none }

/-- A concrete host environment used for witnesses and counterexamples:
four source texts fail to transpile with fixed diagnostics, everything else
transpiles and evaluates to itself. -/
def testTransform : String → Except String String := fun s =>
  if s = "bad1" then Except.error "E1"
  else if s = "bad2" then Except.error "E2"
  else if s = "badA" then Except.error "E"
  else if s = "badB" then Except.error "E"
  else Except.ok s

/-- Concrete environment with Babel present. -/
def testEnv : JsEnv :=
  { babelPresent := true
    transform := testTransform
    instantiate := fun t => Except.ok t }

/-!
The containment boundary: the class component WidgetErrorBoundary
(WidgetStudio.tsx lines 11-54).  A mount or update attempt of the wrapped
child either produces an output or throws; when it throws, React calls
getDerivedStateFromError and componentDidCatch, and the next render of the
boundary returns the fixed fallback instead of the children.
-/

/-- The state of WidgetErrorBoundary (line 17). -/
structure BoundaryState where
  hasError : Bool
  error : Option String
deriving DecidableEq, Repr

/-- The constructor state (lines 15-18). -/
def boundaryInit : BoundaryState :=
  { hasError := false, error := none }

/-- Lines 20-22: the state derived from a caught child error. -/
def getDerivedStateFromError (e : String) : BoundaryState :=
  { hasError := true, error := some e }

/-- The fixed fallback markup rendered when hasError holds (lines 30-49),
abstracted to the text it displays. -/
def fallbackView (e : Option String) : String :=
  "Build Succeeded, Render Failed: " ++ e.getD ""

/-- Result of one mount or update attempt through the boundary: the next
boundary state, the rendered output, and the error handed to the onError
callback, if any. -/
structure MountResult where
  state : BoundaryState
  output : String
  emitted : Option String
deriving DecidableEq, Repr

/-- One mount or update attempt: when the boundary is already failed its
render returns the fallback without rendering the child; otherwise the
child attempt either renders or throws, and a throw is converted to the
Failed state, the fallback output, and an onError emission (lines 20-27,
29-53). -/
def mountStep (st : BoundaryState) (attempt : Except String String) : MountResult :=
  if st.hasError then
    { state := st, output := fallbackView st.error, emitted := none }
  else
    match attempt with
    | Except.ok out => { state := st, output := out, emitted := none }
    | Except.error e =>
        { state := getDerivedStateFromError e
          output := fallbackView (some e)
          emitted := some e }

/-- The onError handler the studio installs on the boundary (lines
433-437): when no generation is in flight it schedules a correction call
carrying the error message; the returned value is the scheduled argument. -/
def studioOnError (isGenerating : Bool) (errMsg : String) : Option String :=
  if isGenerating then none else some errMsg

/-- A host page holding several independently wrapped widgets: each slot is
rendered through its own boundary. -/
def renderApp (ws : List (BoundaryState × Except String String)) : List String :=
  ws.map (fun w => (mountStep w.1 w.2).output)

/-!
The widget registry (src/src/widgetRegistry.ts).  The in-source registry is
a string-keyed object, with registration overwriting the entry at the
definition id.
-/

/-- Props handed to a mounted widget (widgetRegistry.ts lines 24-27). -/
structure WidgetProps where
  id : String
  data : Option String

/-- A registry entry (widgetRegistry.ts lines 40-56), with the component
as a render function from props to output. -/
structure WidgetDefinition where
  id : String
  name : String
  component : WidgetProps → String
  defaultW : Nat
  defaultH : Nat
  description : Option String := none
  category : Option String := none
  domain : Option String := none
  isCertified : Option Bool := none
  configurationMode : Option String := none
  isExecutable : Option Bool := none

/-- Assignment into a string-keyed object: replace the entry at the key in
place when present, append otherwise. -/
def upsert {P : Type} (es : List (String × P)) (id : String) (p : P) : List (String × P) :=
  if es.any (fun e => e.1 == id) then
    es.map (fun e => if e.1 == id then (id, p) else e)
  else
    es ++ [(id, p)]

/-- Object indexing: the value stored at a key. -/
def findVal {P : Type} (es : List (String × P)) (id : String) : Option P :=
  (es.find? (fun e => e.1 == id)).map (fun e => e.2)

/-- Number of entries stored under a key. -/
def countKey {P : Type} (es : List (String × P)) (id : String) : Nat :=
  (es.filter (fun e => e.1 == id)).length

/-- registerWidget (widgetRegistry.ts lines 60-62): assignment of the
definition at its id, widgetRegistry[def.id] = def. -/
def registerWidget (reg : List (String × WidgetDefinition)) (d : WidgetDefinition) :
    List (String × WidgetDefinition) :=
  upsert reg d.id d

/-- The JSON body posted by handlePublish (WidgetStudio.tsx lines 237-248). -/
structure PublishPayload where
  name : String
  description : String
  category : String
  domain : String
  tsx_code : String
  isExecutable : Bool
  data_source_type : String
  data_source : String
  default_w : Nat
  default_h : Nat
deriving DecidableEq, Repr

/-- A rejected publish, carrying its message. -/
structure ValidationError where
  detail : String
deriving DecidableEq, Repr

/-- The runtime registry of published custom widgets together with its
version token. -/
structure CustomRegistry where
  entries : List (String × PublishPayload)
  version : Nat
deriving DecidableEq, Repr

/-- Modelled from the spec: the custom-widget publish path is split between
the server handlers behind /api/widgets/custom and the loadCustomWidgets /
useWidgetRegistry half of the registry, which WidgetStudio.tsx and
WidgetTray.tsx import but whose code is not included in this snapshot of
the repository.  Per spec section 4.5, register/update validates that the
id is non-empty and that the supplied source currently compiles, rejecting
with a ValidationError and leaving the registry untouched otherwise, and
bumps the monotone version token on every successful mutation.  The entry
update itself follows the in-source registerWidget: overwrite at the id. -/
def publishWidget (compiles : String → Bool) (r : CustomRegistry) (id : String)
    (p : PublishPayload) : CustomRegistry × Option ValidationError :=
  if id = "" then
    (r, some { detail := "Widget id must be non-empty" })
  else if compiles p.tsx_code = false then
    (r, some { detail := "Widget source does not compile" })
  else
    ({ entries := upsert r.entries id p, version := r.version + 1 }, none)

/-- Compile check used in registry witnesses, derived from the test
environment transpiler. -/
def testCompiles (s : String) : Bool :=
  match testTransform s with
  | Except.ok _ => true
  | Except.error _ => false

/-! Lemmas about object assignment. -/

lemma upsert_findVal {P : Type} (es : List (String × P)) (id : String) (p : P) :
    findVal (upsert es id p) id = some p := by
  induction es with
  | nil => simp [upsert, findVal]
  | cons e es ih =>
    cases he : (e.1 == id) with
    | true =>
      have hany : (e :: es).any (fun x => x.1 == id) = true := by
        rw [List.any_cons, he, Bool.true_or]
      have hfe : (fun x : String × P => if x.1 == id then (id, p) else x) e = (id, p) := by
        simp [he]
      simp only [upsert, hany, if_true, List.map_cons, hfe, findVal]
      rw [List.find?_cons_of_pos]
      · rfl
      · simp
    | false =>
      have hfe : (fun x : String × P => if x.1 == id then (id, p) else x) e = e := by
        simp [he]
      cases ha : es.any (fun x => x.1 == id) with
      | true =>
        have hany : (e :: es).any (fun x => x.1 == id) = true := by
          rw [List.any_cons, ha, Bool.or_true]
        simp only [upsert, ha, if_true] at ih
        simp only [upsert, hany, if_true, List.map_cons, hfe, findVal]
        rw [List.find?_cons_of_neg]
        · exact ih
        · simp [he]
      | false =>
        have hany : (e :: es).any (fun x => x.1 == id) = false := by
          rw [List.any_cons, he, ha, Bool.or_self]
        simp only [upsert, ha, Bool.false_eq_true, if_false] at ih
        simp only [upsert, hany, Bool.false_eq_true, if_false, findVal, List.cons_append]
        rw [List.find?_cons_of_neg]
        · exact ih
        · simp [he]

lemma countKey_map_replace {P : Type} (es : List (String × P)) (id : String) (p : P) :
    countKey (es.map (fun e => if e.1 == id then (id, p) else e)) id = countKey es id := by
  induction es with
  | nil => rfl
  | cons e es ih =>
    cases he : (e.1 == id) with
    | true =>
      have hfe : (fun x : String × P => if x.1 == id then (id, p) else x) e = (id, p) := by
        simp [he]
      simp only [countKey] at ih
      simp only [List.map_cons, hfe, countKey, List.filter_cons, he, beq_self_eq_true,
        if_true, List.length_cons]
      omega
    | false =>
      have hfe : (fun x : String × P => if x.1 == id then (id, p) else x) e = e := by
        simp [he]
      simp only [countKey] at ih
      simp only [List.map_cons, hfe, countKey, List.filter_cons, he, Bool.false_eq_true,
        if_false]
      exact ih

lemma countKey_pos_of_any {P : Type} (es : List (String × P)) (id : String)
    (h : es.any (fun e => e.1 == id) = true) : 1 ≤ countKey es id := by
  induction es with
  | nil => simp at h
  | cons e es ih =>
    rw [List.any_cons] at h
    cases he : (e.1 == id) with
    | true => simp [countKey, List.filter_cons, he]
    | false =>
      rw [he, Bool.false_or] at h
      have := ih h
      simp only [countKey, List.filter_cons, he, Bool.false_eq_true, if_false]
      exact this

lemma countKey_eq_zero_of_any_false {P : Type} (es : List (String × P)) (id : String)
    (h : es.any (fun e => e.1 == id) = false) : countKey es id = 0 := by
  induction es with
  | nil => rfl
  | cons e es ih =>
    rw [List.any_cons, Bool.or_eq_false_iff] at h
    have := ih h.2
    simp only [countKey, List.filter_cons, h.1, Bool.false_eq_true, if_false]
    exact this

lemma countKey_append_single {P : Type} (es : List (String × P)) (id : String) (p : P) :
    countKey (es ++ [(id, p)]) id = countKey es id + 1 := by
  simp [countKey, List.filter_append, List.filter_cons]

lemma upsert_countKey {P : Type} (es : List (String × P)) (id : String) (p : P)
    (h : countKey es id ≤ 1) : countKey (upsert es id p) id = 1 := by
  cases ha : es.any (fun e => e.1 == id) with
  | true =>
    have h1 := countKey_pos_of_any es id ha
    have h2 := countKey_map_replace es id p
    simp only [upsert, ha, if_true]
    omega
  | false =>
    have h0 := countKey_eq_zero_of_any_false es id ha
    simp only [upsert, ha, Bool.false_eq_true, if_false]
    rw [countKey_append_single, h0]

/-! Sample inputs for witnesses and counterexamples. -/

/-- An empty custom-widget registry at version 0. -/
def emptyRegistry : CustomRegistry := { entries := [], version := 0 }

/-- A publish payload whose source fails to compile in the test
environment. -/
def payloadBad : PublishPayload :=
  { name := "KPI", description := "", category := "Custom", domain := "General"
    tsx_code := "bad1", isExecutable := false, data_source_type := "none"
    data_source := "", default_w := 6, default_h := 6 }

/-- A first valid publish payload. -/
def payloadA : PublishPayload :=
  { name := "KPI v1", description := "", category := "Custom", domain := "General"
    tsx_code := "srcA", isExecutable := false, data_source_type := "none"
    data_source := "", default_w := 6, default_h := 6 }

/-- A second valid publish payload for the same id. -/
def payloadB : PublishPayload :=
  { name := "KPI v2", description := "", category := "Custom", domain := "General"
    tsx_code := "srcB", isExecutable := false, data_source_type := "none"
    data_source := "", default_w := 4, default_h := 4 }

/-- C5: a register/update (publish) call whose supplied source does not
compile or whose id is empty is rejected with a ValidationError, and the
registry, in particular its version token, is unchanged by the rejected
call. -/
theorem c5_publish_gate (compiles : String → Bool) (r : CustomRegistry) (id : String)
    (p : PublishPayload) (h : id = "" ∨ compiles p.tsx_code = false) :
    (publishWidget compiles r id p).2.isSome = true ∧
    (publishWidget compiles r id p).1 = r ∧
    (publishWidget compiles r id p).1.version = r.version := by
  rcases h with h | h
  · simp [publishWidget, h]
  · by_cases hid : id = ""
    · simp [publishWidget, hid]
    · simp [publishWidget, hid, h]

/-- Witness for C5 at a concrete registry, id and non-compiling payload. -/
theorem c5_publish_gate_witness :
    (publishWidget testCompiles emptyRegistry "kpi1" payloadBad).2.isSome = true ∧
    (publishWidget testCompiles emptyRegistry "kpi1" payloadBad).1 = emptyRegistry ∧
    (publishWidget testCompiles emptyRegistry "kpi1" payloadBad).1.version
      = emptyRegistry.version :=
  c5_publish_gate testCompiles emptyRegistry "kpi1" payloadBad (Or.inr (by decide))

/-- C6: publishing the same id twice with valid source both times leaves
exactly one registry entry for that id, holding the second submission, with
the version token strictly greater after the second call than after the
first; the entry overwrite itself is the in-source registerWidget
assignment semantics, stated in the final conjunct. -/
theorem c6_republish (compiles : String → Bool) (r : CustomRegistry) (id : String)
    (p1 p2 : PublishPayload) (hid : id ≠ "")
    (h1 : compiles p1.tsx_code = true) (h2 : compiles p2.tsx_code = true)
    (hc : countKey r.entries id ≤ 1) :
    countKey (publishWidget compiles (publishWidget compiles r id p1).1 id p2).1.entries id
      = 1 ∧
    findVal (publishWidget compiles (publishWidget compiles r id p1).1 id p2).1.entries id
      = some p2 ∧
    (publishWidget compiles r id p1).1.version
      < (publishWidget compiles (publishWidget compiles r id p1).1 id p2).1.version ∧
    (∀ (reg : List (String × WidgetDefinition)) (d1 d2 : WidgetDefinition),
      d1.id = id → d2.id = id → countKey reg id ≤ 1 →
      countKey (registerWidget (registerWidget reg d1) d2) id = 1 ∧
      findVal (registerWidget (registerWidget reg d1) d2) id = some d2) := by
  have hn1 : ¬ compiles p1.tsx_code = false := by rw [h1]; simp
  have hn2 : ¬ compiles p2.tsx_code = false := by rw [h2]; simp
  have e1 : (publishWidget compiles r id p1).1
      = { entries := upsert r.entries id p1, version := r.version + 1 } := by
    simp [publishWidget, hid, hn1]
  have e2 : (publishWidget compiles (publishWidget compiles r id p1).1 id p2).1
      = { entries := upsert (upsert r.entries id p1) id p2, version := r.version + 2 } := by
    rw [e1]; simp [publishWidget, hid, hn2]
  refine ⟨?_, ?_, ?_, ?_⟩
  · rw [e2]
    exact upsert_countKey _ id p2 (le_of_eq (upsert_countKey _ id p1 hc))
  · rw [e2]
    exact upsert_findVal _ id p2
  · rw [e2, e1]
    exact Nat.lt_succ_self (r.version + 1)
  · intro reg d1 d2 hd1 hd2 hreg
    unfold registerWidget
    rw [hd1, hd2]
    exact ⟨upsert_countKey _ id d2 (le_of_eq (upsert_countKey _ id d1 hreg)),
      upsert_findVal _ id d2⟩

/-- Witness for C6: publishing id kpi1 twice with two different valid
payloads into the empty registry. -/
theorem c6_republish_witness :
    countKey (publishWidget testCompiles
      (publishWidget testCompiles emptyRegistry "kpi1" payloadA).1 "kpi1" payloadB).1.entries
      "kpi1" = 1 ∧
    findVal (publishWidget testCompiles
      (publishWidget testCompiles emptyRegistry "kpi1" payloadA).1 "kpi1" payloadB).1.entries
      "kpi1" = some payloadB ∧
    (publishWidget testCompiles emptyRegistry "kpi1" payloadA).1.version
      < (publishWidget testCompiles
          (publishWidget testCompiles emptyRegistry "kpi1" payloadA).1 "kpi1"
          payloadB).1.version ∧
    (∀ (reg : List (String × WidgetDefinition)) (d1 d2 : WidgetDefinition),
      d1.id = "kpi1" → d2.id = "kpi1" → countKey reg "kpi1" ≤ 1 →
      countKey (registerWidget (registerWidget reg d1) d2) "kpi1" = 1 ∧
      findVal (registerWidget (registerWidget reg d1) d2) "kpi1" = some d2) :=
  c6_republish testCompiles emptyRegistry "kpi1" payloadA payloadB (by decide) (by decide)
    (by decide) (by decide)

/-- C7: a generation-service failure, whether a network rejection or a
non-2xx HTTP response, appends a system turn to the conversation snapshot
and halts the attempt: the source text, the recorded preview error (the
auto-retry bound state), the scheduled retries and the pending compilation
are all unchanged, and isGenerating is cleared. -/
theorem c7_transport_failure (st : Studio) (req : InflightReq) (e d stx : String) :
    (resolveReq st req (GenResponse.network e)).code = st.code ∧
    (resolveReq st req (GenResponse.network e)).messages
      = req.newMessages ++ [⟨Role.system, "Network Error: " ++ e⟩] ∧
    (resolveReq st req (GenResponse.network e)).isGenerating = false ∧
    (resolveReq st req (GenResponse.network e)).previewError = st.previewError ∧
    (resolveReq st req (GenResponse.network e)).pendingRetries = st.pendingRetries ∧
    (resolveReq st req (GenResponse.network e)).pendingEval = st.pendingEval ∧
    (resolveReq st req (GenResponse.network e)).rev = st.rev ∧
    (resolveReq st req (GenResponse.httpError d stx)).code = st.code ∧
    (resolveReq st req (GenResponse.httpError d stx)).messages
      = req.newMessages ++ [⟨Role.system, "Server Error: " ++ jsOrS d stx⟩] ∧
    (resolveReq st req (GenResponse.httpError d stx)).isGenerating = false ∧
    (resolveReq st req (GenResponse.httpError d stx)).previewError = st.previewError ∧
    (resolveReq st req (GenResponse.httpError d stx)).pendingRetries = st.pendingRetries ∧
    (resolveReq st req (GenResponse.httpError d stx)).pendingEval = st.pendingEval := by
  refine ⟨rfl, rfl, rfl, rfl, rfl, rfl, rfl, rfl, rfl, rfl, rfl, rfl, rfl⟩

/-- An armed debounce holding an all-whitespace source. -/
def pendingWs : PendingEval :=
  { rev := 0, code := "   ", capturedPreviewError := none, capturedIsGenerating := false }

/-- C10: with the Babel compiler present, an armed evaluation of an empty
or whitespace-only source yields the built-in placeholder preview, records
no compile error, and schedules no auto-correction, whatever the closure
captured. -/
theorem c10_empty_source (env : JsEnv) (p : PendingEval) (st : Studio)
    (hb : env.babelPresent = true) (hc : p.code = "" ∨ jsTrim p.code = "") :
    (evaluateCodeStep env p st).previewComponent = some PreviewComp.placeholder ∧
    (evaluateCodeStep env p st).previewError = none ∧
    (evaluateCodeStep env p st).pendingRetries = st.pendingRetries := by
  have hbody : evalBodyE env p.code = Except.ok EvalOk.placeholder := by
    simp [evalBodyE, hb, hc]
  simp [evaluateCodeStep, hbody]

/-- Witness for C10 at the test environment and an all-whitespace source. -/
theorem c10_empty_source_witness :
    (evaluateCodeStep testEnv pendingWs initialStudio).previewComponent
      = some PreviewComp.placeholder ∧
    (evaluateCodeStep testEnv pendingWs initialStudio).previewError = none ∧
    (evaluateCodeStep testEnv pendingWs initialStudio).pendingRetries
      = initialStudio.pendingRetries :=
  c10_empty_source testEnv pendingWs initialStudio rfl (Or.inr (by decide))

/-- C2: when the wrapped component value throws during a mount or update
attempt from a not-yet-failed boundary, the boundary transitions to the
Failed state, replaces the child subtree by the fixed fallback in its
output, hands the captured render error to the onError callback (which the
studio forwards to the generation loop when no generation is in flight),
and every other independently wrapped widget of the host renders exactly
as it would on its own. -/
theorem c2_boundary_containment (st : BoundaryState) (e : String)
    (h : st.hasError = false) :
    (mountStep st (Except.error e)).state.hasError = true ∧
    (mountStep st (Except.error e)).state.error = some e ∧
    (mountStep st (Except.error e)).output = fallbackView (some e) ∧
    (mountStep st (Except.error e)).emitted = some e ∧
    studioOnError false e = some e ∧
    ∀ pre post : List (BoundaryState × Except String String),
      renderApp (pre ++ (st, Except.error e) :: post)
        = renderApp pre ++ fallbackView (some e) :: renderApp post := by
  refine ⟨?_, ?_, ?_, ?_, rfl, ?_⟩
  · simp [mountStep, h, getDerivedStateFromError]
  · simp [mountStep, h, getDerivedStateFromError]
  · simp [mountStep, h]
  · simp [mountStep, h]
  · intro pre post
    simp [renderApp, mountStep, h]

/-! C3 machinery: any pending (debounced) compilation is always for the
current source revision, because every code change clears and re-arms the
timer for the new code. -/

/-- The armed debounce timer, when present, holds exactly the current
revision and the current code text. -/
def pendingCurrent (st : Studio) : Prop :=
  ∀ q : PendingEval, st.pendingEval = some q → q.rev = st.rev ∧ q.code = st.code

lemma setCode_pendingCurrent (st : Studio) (c : String) : pendingCurrent (setCode st c) := by
  intro q hq
  have h2 : ({ rev := st.rev + 1, code := c, capturedPreviewError := st.previewError,
               capturedIsGenerating := st.isGenerating } : PendingEval) = q :=
    Option.some.inj hq
  rw [← h2]
  exact ⟨rfl, rfl⟩

lemma handleGenerateEntry_fields (st : Studio) (a : Option String) :
    (handleGenerateEntry st a).pendingEval = st.pendingEval ∧
    (handleGenerateEntry st a).rev = st.rev ∧
    (handleGenerateEntry st a).code = st.code := by
  by_cases hg : st.prompt = "" ∧ a.getD "" = ""
  · simp [handleGenerateEntry, hg]
  · simp [handleGenerateEntry, hg]

lemma handleGenerateEntry_pendingCurrent (st : Studio) (a : Option String)
    (h : pendingCurrent st) : pendingCurrent (handleGenerateEntry st a) := by
  intro q hq
  obtain ⟨h1, h2, h3⟩ := handleGenerateEntry_fields st a
  rw [h1] at hq
  rw [h2, h3]
  exact h q hq

lemma evaluateCodeStep_pendingEval (env : JsEnv) (p : PendingEval) (st : Studio) :
    (evaluateCodeStep env p st).pendingEval = none := by
  unfold evaluateCodeStep
  cases hb : evalBodyE env p.code with
  | ok o => cases o <;> rfl
  | error m =>
    by_cases hpe : p.capturedPreviewError ≠ some m <;> simp [hpe]

lemma resolveReq_ok_fields (st : Studio) (req : InflightReq) (cc : String)
    (expl : Option String) (hcc : cc ≠ "") :
    (resolveReq st req (GenResponse.ok (some cc) expl)).pendingEval
      = some { rev := st.rev + 1, code := cc, capturedPreviewError := st.previewError,
               capturedIsGenerating := false } ∧
    (resolveReq st req (GenResponse.ok (some cc) expl)).rev = st.rev + 1 ∧
    (resolveReq st req (GenResponse.ok (some cc) expl)).code = cc := by
  simp [resolveReq, hcc, setCode]

lemma resolveReq_pendingCurrent (st : Studio) (req : InflightReq) (resp : GenResponse)
    (h : pendingCurrent st) : pendingCurrent (resolveReq st req resp) := by
  cases resp with
  | network e => exact fun q hq => h q hq
  | httpError d stx => exact fun q hq => h q hq
  | ok c expl =>
    cases c with
    | none => exact fun q hq => h q hq
    | some cc =>
      by_cases hcc : cc ≠ ""
      · intro q hq
        obtain ⟨h1, h2, h3⟩ := resolveReq_ok_fields st req cc expl hcc
        rw [h1] at hq
        have h4 : ({ rev := st.rev + 1, code := cc, capturedPreviewError := st.previewError,
                     capturedIsGenerating := false } : PendingEval) = q :=
          Option.some.inj hq
        rw [h2, h3, ← h4]
        exact ⟨rfl, rfl⟩
      · have hcc2 : cc = "" := by
          by_contra hx
          exact hcc hx
        intro q hq
        have he : resolveReq st req (GenResponse.ok (some cc) expl)
            = { st with
                messages := req.newMessages
                  ++ [⟨Role.assistant, jsOrS (expl.getD "")
                        (if req.auto.isSome then "I have attempted to fix the compilation error."
                         else "Widget code generated.")⟩]
                isGenerating := false } := by
          simp [resolveReq, hcc2]
        rw [he] at hq ⊢
        exact h q hq

lemma step_pendingCurrent (env : JsEnv) (st : Studio) (ev : Event)
    (h : pendingCurrent st) : pendingCurrent (step env st ev) := by
  cases ev with
  | typePrompt s => exact fun q hq => h q hq
  | submitPrompt => exact handleGenerateEntry_pendingCurrent st none h
  | edit c => exact setCode_pendingCurrent st c
  | evalFire =>
    cases hp : st.pendingEval with
    | none =>
      intro q hq
      simp only [step, hp] at hq ⊢
      exact absurd hq (by simp)
    | some rc =>
      intro q hq
      simp only [step, hp] at hq
      rw [evaluateCodeStep_pendingEval] at hq
      exact absurd hq (by simp)
  | retryFire i =>
    cases hg : st.pendingRetries.get? i with
    | none =>
      intro q hq
      simp only [step, hg] at hq ⊢
      exact h q hq
    | some msg =>
      intro q hq
      simp only [step, hg] at hq ⊢
      exact handleGenerateEntry_pendingCurrent
        { st with pendingRetries := st.pendingRetries.eraseIdx i } (some msg)
        (fun p hp => h p hp) q hq
  | resolve i resp =>
    cases hg : st.inflight.get? i with
    | none =>
      intro q hq
      simp only [step, hg] at hq ⊢
      exact h q hq
    | some req =>
      intro q hq
      simp only [step, hg] at hq ⊢
      exact resolveReq_pendingCurrent
        { st with inflight := st.inflight.eraseIdx i } req resp
        (fun p hp => h p hp) q hq

/-- The trace refuting the generation half of C3: a generation request is
issued, the user edits the source to revision 1 while it is outstanding,
and when the older request resolves its code is applied anyway, becoming
the previewed source. -/
def trC3 : List Event :=
  [Event.typePrompt "make a chart", Event.submitPrompt, Event.edit "c1",
    Event.evalFire, Event.resolve 0 (GenResponse.ok (some "stale") none),
    Event.evalFire]

/-- C3 counterexample: after the edit the request of the previous revision
is still outstanding; when it resolves, its code replaces the newer
revision and is evaluated and applied to the preview, so the older
request result is not discarded on arrival. -/
theorem c3_counterexample :
    (run testEnv initialStudio (trC3.take 3)).inflight.length = 1 ∧
    (run testEnv initialStudio (trC3.take 3)).code = "c1" ∧
    (run testEnv initialStudio trC3).code = "stale" ∧
    (run testEnv initialStudio trC3).previewComponent
      = some (PreviewComp.compiled "stale") := by
  exact ⟨rfl, rfl, rfl, rfl⟩

/-- C3 amended: compilation is last-write-wins by revision — along every
event trace the armed debounce always holds the current revision and the
current code (setting a newer revision discards the pending older
compilation), so an evaluation is only ever applied for the code current
when it fires; a generation-service response, however, is applied on
arrival even when a newer revision was set meanwhile (see the
counterexample). -/
theorem c3_revision_ordering :
    (∀ (env : JsEnv) (st : Studio) (es : List Event),
      pendingCurrent st → pendingCurrent (run env st es)) ∧
    (∀ (st : Studio) (c : String),
      (setCode st c).pendingEval
        = some { rev := st.rev + 1, code := c, capturedPreviewError := st.previewError,
                 capturedIsGenerating := st.isGenerating }) := by
  constructor
  · intro env st es h
    induction es generalizing st with
    | nil => exact h
    | cons e es ih => exact ih _ (step_pendingCurrent env st e h)
  · intro st c
    rfl

/-- Witness for C3 amended: running a concrete edit from the initial state
and reading back, via the theorem, that the armed compilation is for the
current code. -/
theorem c3_revision_ordering_witness :
    1 = (run testEnv initialStudio [Event.edit "x"]).rev ∧
    "x" = (run testEnv initialStudio [Event.edit "x"]).code :=
  c3_revision_ordering.1 testEnv initialStudio [Event.edit "x"]
    (fun q hq => by
      have h2 : ({ rev := 0, code := defaultCode, capturedPreviewError := none,
                   capturedIsGenerating := false } : PendingEval) = q :=
        Option.some.inj hq
      rw [← h2]
      exact ⟨rfl, rfl⟩)
    { rev := 1, code := "x", capturedPreviewError := none, capturedIsGenerating := false }
    rfl

/-- An armed debounce whose closure captured no previous diagnostic and no
in-flight generation. -/
def pendingFresh : PendingEval :=
  { rev := 0, code := "bad1", capturedPreviewError := none, capturedIsGenerating := false }

/-- An armed debounce whose closure captured a generation in flight. -/
def pendingGen : PendingEval :=
  { rev := 0, code := "bad1", capturedPreviewError := none, capturedIsGenerating := true }

/-- The trace refuting C1: badA fails and its diagnostic E is recorded; an
edit to badB arms a closure capturing E; a prompt submission inside the
debounce window clears the live recorded error and its generation resolves
without code; when the debounce fires, badB fails with E again and the
step, comparing against the captured E rather than the cleared live value,
records nothing. -/
def trC1 : List Event :=
  [Event.edit "badA", Event.evalFire, Event.edit "badB",
    Event.typePrompt "make it work", Event.submitPrompt,
    Event.resolve 0 (GenResponse.ok none none), Event.evalFire]

/-- C1 counterexample: the source badB fails to compile with diagnostic E,
the live previewError is already clear before the fire (first six events),
the failing source is then evaluated and applied (lastApplied), yet
previewError remains none afterwards: the failure is not recorded as
user-visible state, contrary to the claim. -/
theorem c1_counterexample :
    evalBodyE testEnv "badB" = Except.error "E" ∧
    (run testEnv initialStudio (trC1.take 6)).previewError = none ∧
    (run testEnv initialStudio trC1).lastApplied = some (2, "badB") ∧
    (run testEnv initialStudio trC1).previewError = none ∧
    (run testEnv initialStudio trC1).pendingRetries = ["E"] := by
  exact ⟨rfl, rfl, rfl, rfl, rfl⟩

/-- C1 amended: for every armed evaluation whose source fails to compile,
the step never lets the exception escape (the outcome is always
completed); it records the diagnostic message as previewError and drops
the component when the message differs from the diagnostic the effect
closure captured when the source was set, and on a repeat of that
captured diagnostic it records nothing, leaving the error state cleared. -/
theorem c1_compile_error_contained (env : JsEnv) (p : PendingEval) (st : Studio)
    (msg : String) (h : evalBodyE env p.code = Except.error msg) :
    (∃ s, evaluateCode env p st = StepOutcome.completed s) ∧
    (p.capturedPreviewError ≠ some msg →
      (evaluateCodeStep env p st).previewError = some msg ∧
      (evaluateCodeStep env p st).previewComponent = none) ∧
    (p.capturedPreviewError = some msg →
      (evaluateCodeStep env p st).previewError = none) := by
  refine ⟨⟨evaluateCodeStep env p st, rfl⟩, ?_, ?_⟩
  · intro hne
    constructor <;> simp [evaluateCodeStep, h, hne]
  · intro heq
    simp [evaluateCodeStep, h, heq]

/-- Witness for C1 amended at a concrete failing source whose closure
captured no previous diagnostic. -/
theorem c1_compile_error_contained_witness :
    (∃ s, evaluateCode testEnv pendingFresh initialStudio = StepOutcome.completed s) ∧
    ((evaluateCodeStep testEnv pendingFresh initialStudio).previewError = some "E1" ∧
      (evaluateCodeStep testEnv pendingFresh initialStudio).previewComponent = none) :=
  ⟨(c1_compile_error_contained testEnv pendingFresh initialStudio "E1" rfl).1,
    (c1_compile_error_contained testEnv pendingFresh initialStudio "E1" rfl).2.1 (by decide)⟩

/-- The trace refuting the in-flight half of C4: two evaluations failing
with distinct diagnostics schedule two auto-retries; the first retry
starts a generation, and the second retry still fires while that
generation is outstanding, because the isGenerating guard was consulted at
scheduling time only. -/
def trC4 : List Event :=
  [Event.edit "bad1", Event.evalFire, Event.edit "bad2", Event.evalFire,
    Event.retryFire 0, Event.retryFire 0]

/-- A second trace refuting C4: the user submits a prompt inside the
debounce window of an edit to failing source; the armed closure captured
isGenerating = false, so when the debounce fires the retry is scheduled
even though a generation is in flight at scheduling time. -/
def trC4b : List Event :=
  [Event.edit "bad1", Event.typePrompt "make a chart too", Event.submitPrompt,
    Event.evalFire]

/-- C4 counterexample: in trC4, after the first five events one
auto-correction is in flight (isGenerating holds and one auto request is
outstanding), and the sixth event fires the second auto-correction anyway,
leaving two auto-correction requests simultaneously in flight; in trC4b,
an auto-correction is even scheduled while a generation is in flight,
because the guard consulted the stale captured flag. -/
theorem c4_counterexample :
    (run testEnv initialStudio (trC4.take 5)).isGenerating = true ∧
    ((run testEnv initialStudio (trC4.take 5)).inflight.filter
      (fun q => q.auto.isSome)).length = 1 ∧
    ((run testEnv initialStudio trC4).inflight.filter
      (fun q => q.auto.isSome)).length = 2 ∧
    (run testEnv initialStudio trC4b).isGenerating = true ∧
    (run testEnv initialStudio trC4b).pendingRetries = ["E1"] := by
  exact ⟨rfl, rfl, rfl, rfl, rfl⟩

/-- C4 amended: when an armed evaluation fails, no auto-retry is scheduled
when the closure captured a generation in flight, none is scheduled when
the diagnostic repeats the captured previous one (so an unchanging error
never retries more than once), and exactly one is scheduled when the
diagnostic differs from the captured one and the captured isGenerating is
false; both guard reads are the values captured when the source was set,
so a generation started inside the debounce window does not block
scheduling, and an already-scheduled retry is not re-checked when it
fires — two corrections can end up concurrently in flight (see the
counterexample). -/
theorem c4_retry_policy (env : JsEnv) (p : PendingEval) (st : Studio) (msg : String)
    (h : evalBodyE env p.code = Except.error msg) :
    (p.capturedIsGenerating = true →
      (evaluateCodeStep env p st).pendingRetries = st.pendingRetries) ∧
    (p.capturedPreviewError = some msg →
      (evaluateCodeStep env p st).pendingRetries = st.pendingRetries) ∧
    (p.capturedPreviewError ≠ some msg → p.capturedIsGenerating = false →
      (evaluateCodeStep env p st).pendingRetries = st.pendingRetries ++ [msg]) := by
  refine ⟨?_, ?_, ?_⟩
  · intro hg
    by_cases hpe : p.capturedPreviewError = some msg <;>
      simp [evaluateCodeStep, h, hpe, hg]
  · intro hpe
    simp [evaluateCodeStep, h, hpe]
  · intro hpe hg
    simp [evaluateCodeStep, h, hpe, hg]

/-- Witness for C4 amended: with a captured in-flight generation no retry
is scheduled; with a fresh captured diagnostic and no captured generation
exactly one is scheduled. -/
theorem c4_retry_policy_witness :
    (evaluateCodeStep testEnv pendingGen initialStudio).pendingRetries
      = initialStudio.pendingRetries ∧
    (evaluateCodeStep testEnv pendingFresh initialStudio).pendingRetries
      = initialStudio.pendingRetries ++ ["E1"] :=
  ⟨(c4_retry_policy testEnv pendingGen initialStudio "E1" rfl).1 rfl,
    (c4_retry_policy testEnv pendingFresh initialStudio "E1" rfl).2.2 (by decide) rfl⟩

/-- The trace refuting C9: a failure records diagnostic E and schedules a
retry; the user then manually edits the source, and the edited source
fails with the same diagnostic. -/
def trC9 : List Event :=
  [Event.edit "badA", Event.evalFire, Event.edit "badB", Event.evalFire]

/-- C9 counterexample: after the manual edit mid-streak, the next failure
schedules no fresh auto-retry (the retry list is unchanged from before the
edit) and even clears the recorded error, contradicting the claim that a
manual edit resets the attempt counter so that the next failure triggers
exactly one fresh retry. -/
theorem c9_counterexample :
    (run testEnv initialStudio (trC9.take 2)).pendingRetries = ["E"] ∧
    (run testEnv initialStudio (trC9.take 2)).previewError = some "E" ∧
    (run testEnv initialStudio trC9).pendingRetries = ["E"] ∧
    (run testEnv initialStudio trC9).previewError = none := by
  exact ⟨rfl, rfl, rfl, rfl⟩

/-- C9 amended: submitting a new prompt clears the live recorded error, so
a source set after that clearing arms a closure that captured no previous
diagnostic, and its failure (with no generation captured in flight)
schedules exactly one fresh auto-retry; a manual source edit, by contrast,
leaves the recorded error in place and arms a closure capturing it, and a
subsequent failure repeating that captured diagnostic schedules no retry
at all. -/
theorem c9_reset_policy :
    (∀ st : Studio, st.prompt ≠ "" → (handleGenerateEntry st none).previewError = none) ∧
    (∀ (st : Studio) (c : String),
      (setCode st c).previewError = st.previewError ∧
      (setCode st c).pendingEval
        = some { rev := st.rev + 1, code := c, capturedPreviewError := st.previewError,
                 capturedIsGenerating := st.isGenerating }) ∧
    (∀ (env : JsEnv) (p : PendingEval) (st : Studio) (msg : String),
      evalBodyE env p.code = Except.error msg → p.capturedPreviewError = none →
      p.capturedIsGenerating = false →
      (evaluateCodeStep env p st).pendingRetries = st.pendingRetries ++ [msg]) ∧
    (∀ (env : JsEnv) (p : PendingEval) (st : Studio) (msg : String),
      evalBodyE env p.code = Except.error msg → p.capturedPreviewError = some msg →
      (evaluateCodeStep env p st).pendingRetries = st.pendingRetries) := by
  refine ⟨?_, ?_, ?_, ?_⟩
  · intro st hp
    simp [handleGenerateEntry, hp]
  · intro st c
    exact ⟨rfl, rfl⟩
  · intro env p st msg h hpe hg
    simp [evaluateCodeStep, h, hpe, hg]
  · intro env p st msg h hpe
    simp [evaluateCodeStep, h, hpe]

/-- A studio state with a pending prompt. -/
def studioPrompted : Studio := { initialStudio with prompt := "draw a chart" }

/-- Witness for C9 amended: a concrete prompt submission clears the
recorded error, and a concrete failure under a closure that captured no
previous diagnostic and no in-flight generation schedules one retry. -/
theorem c9_reset_policy_witness :
    (handleGenerateEntry studioPrompted none).previewError = none ∧
    (evaluateCodeStep testEnv pendingFresh initialStudio).pendingRetries
      = initialStudio.pendingRetries ++ ["E1"] :=
  ⟨c9_reset_policy.1 studioPrompted (by decide),
    c9_reset_policy.2.2.1 testEnv pendingFresh initialStudio "E1" rfl rfl rfl⟩

/-- A studio state about to submit a user prompt with non-default code. -/
def studioUserPath : Studio :=
  { initialStudio with code := "X", prompt := "draw a chart" }

/-- C8 counterexample: on the user-prompt path the issued request carries
current_code equal to the current source text, a non-empty string, not a
null source as the claim states. -/
theorem c8_counterexample :
    ((handleGenerateEntry studioUserPath none).inflight.map
      (fun q => q.body.current_code)) = ["X"] ∧
    ("X" : String) ≠ "" := by
  exact ⟨rfl, by decide⟩

/-- C8 amended: a user-submitted prompt appends a user turn and issues a
request carrying the prompt, the system-turn-free history, the captured
previewError as error log, and the current source text; an error-triggered
correction appends a system turn summarizing the error and issues a
request whose prompt falls back to a fixed fix instruction when the prompt
box is empty, carrying the error text and, again, the current source. -/
theorem c8_request_shapes (st : Studio) (e : String) :
    (st.prompt ≠ "" →
      (handleGenerateEntry st none).messages
        = st.messages ++ [⟨Role.user, st.prompt⟩] ∧
      (handleGenerateEntry st none).inflight
        = st.inflight ++ [⟨st.messages ++ [⟨Role.user, st.prompt⟩], none,
            { prompt := st.prompt
              history := st.messages.filter (fun t => t.role ≠ Role.system)
              error_log := st.previewError
              current_code := st.code
              data_source_schema := st.dataSourceSchema
              data_source := if st.dataSourceType ≠ "none" then some st.dataSource else none
              data_source_type :=
                if st.dataSourceType ≠ "none" then some st.dataSourceType else none }⟩]) ∧
    (e ≠ "" →
      (handleGenerateEntry st (some e)).messages
        = st.messages
            ++ [⟨Role.system, "Auto-retrying due to compilation error: " ++ e⟩] ∧
      (handleGenerateEntry st (some e)).inflight
        = st.inflight
            ++ [⟨st.messages
                  ++ [⟨Role.system, "Auto-retrying due to compilation error: " ++ e⟩],
                some e,
                { prompt := jsOrS st.prompt "Please fix the compilation error in the code."
                  history := st.messages.filter (fun t => t.role ≠ Role.system)
                  error_log := some e
                  current_code := st.code
                  data_source_schema := st.dataSourceSchema
                  data_source := if st.dataSourceType ≠ "none" then some st.dataSource else none
                  data_source_type :=
                    if st.dataSourceType ≠ "none" then some st.dataSourceType else none }⟩]) := by
  constructor
  · intro hp
    constructor
    · simp [handleGenerateEntry, hp]
    · simp [handleGenerateEntry, buildGenRequest, jsOrS, jsOr, hp]
  · intro he
    constructor
    · simp [handleGenerateEntry, he]
    · simp [handleGenerateEntry, buildGenRequest, jsOr, he]

/-- Witness for C8 amended at a concrete state and error text. -/
theorem c8_request_shapes_witness :
    ((handleGenerateEntry studioUserPath none).messages
        = studioUserPath.messages ++ [⟨Role.user, studioUserPath.prompt⟩] ∧
      (handleGenerateEntry studioUserPath none).inflight
        = studioUserPath.inflight
            ++ [⟨studioUserPath.messages ++ [⟨Role.user, studioUserPath.prompt⟩], none,
              { prompt := studioUserPath.prompt
                history := studioUserPath.messages.filter (fun t => t.role ≠ Role.system)
                error_log := studioUserPath.previewError
                current_code := studioUserPath.code
                data_source_schema := studioUserPath.dataSourceSchema
                data_source :=
                  if studioUserPath.dataSourceType ≠ "none" then some studioUserPath.dataSource
                  else none
                data_source_type :=
                  if studioUserPath.dataSourceType ≠ "none" then some studioUserPath.dataSourceType
                  else none }⟩]) ∧
    ((handleGenerateEntry studioUserPath (some "E1")).messages
        = studioUserPath.messages
            ++ [⟨Role.system, "Auto-retrying due to compilation error: " ++ "E1"⟩] ∧
      (handleGenerateEntry studioUserPath (some "E1")).inflight
        = studioUserPath.inflight
            ++ [⟨studioUserPath.messages
                  ++ [⟨Role.system, "Auto-retrying due to compilation error: " ++ "E1"⟩],
                some "E1",
                { prompt := jsOrS studioUserPath.prompt
                    "Please fix the compilation error in the code."
                  history := studioUserPath.messages.filter (fun t => t.role ≠ Role.system)
                  error_log := some "E1"
                  current_code := studioUserPath.code
                  data_source_schema := studioUserPath.dataSourceSchema
                  data_source :=
                    if studioUserPath.dataSourceType ≠ "none" then some studioUserPath.dataSource
                    else none
                  data_source_type :=
                    if studioUserPath.dataSourceType ≠ "none" then
                      some studioUserPath.dataSourceType
                    else none }⟩]) :=
  ⟨(c8_request_shapes studioUserPath "E1").1 (by decide),
    (c8_request_shapes studioUserPath "E1").2 (by decide)⟩

/-- Witness for C2 at a freshly constructed boundary and a throwing
child. -/
theorem c2_boundary_containment_witness :
    (mountStep boundaryInit (Except.error "boom")).state.hasError = true ∧
    (mountStep boundaryInit (Except.error "boom")).state.error = some "boom" ∧
    (mountStep boundaryInit (Except.error "boom")).output = fallbackView (some "boom") ∧
    (mountStep boundaryInit (Except.error "boom")).emitted = some "boom" ∧
    studioOnError false "boom" = some "boom" ∧
    ∀ pre post : List (BoundaryState × Except String String),
      renderApp (pre ++ (boundaryInit, Except.error "boom") :: post)
        = renderApp pre ++ fallbackView (some "boom") :: renderApp post :=
  c2_boundary_containment boundaryInit "boom" rfl
